import Mathlib

/-!
Verification of the core of a chatbot-with-analytics program (`chatbot.py`).

The program has four core functions:
* `exponential_backoff_fetch` — POSTs a JSON payload, retrying with
  exponentially growing sleeps; after the last failed attempt it re-raises
  the last `RequestException`.
* `get_gemini_response` / `classify_topic` — build a payload, call the fetch,
  extract `response_data["candidates"][0]["content"]["parts"][0]["text"]`,
  and catch every exception, degrading to default strings.
* `log_analytics` — appends one JSON line to `analytics.jsonl`.
* `get_analytics_dashboard_data` — scans `analytics.jsonl` line by line,
  counts queries / positive / negative ratings and a per-topic histogram,
  and returns the topics sorted by count descending (Python stable sort).

The embedding below models parsed JSON values (`Json`), Python exceptions
that the code paths can raise (`PyExc`), the per-attempt behaviour of the
remote endpoint as a function `Json → Nat → AttemptOutcome` (payload and
attempt index to outcome), and a log file as the list of the `json.loads`
outcomes of its lines (`none` for a line that raises `JSONDecodeError`;
`json.dumps` always produces a single line that parses back to the value).
The URL / API-key concatenation is not modelled: no property depends on it.
-/

namespace Chatbot

/-- A JSON value as produced by `json.loads`. JSON numbers are modelled as
integers; no property here depends on fractional values. An object is its
ordered field list (Python dicts preserve insertion order). -/
inductive Json where
  | null : Json
  | bool (b : Bool) : Json
  | num (n : Int) : Json
  | str (s : String) : Json
  | arr (elems : List Json) : Json
  | obj (fields : List (String × Json)) : Json

mutual

/-- Decidable equality of parsed JSON values (Python `==` on the results of
`json.loads`, restricted to the value forms modelled here). -/
def Json.decEq (a b : Json) : Decidable (a = b) :=
  match a, b with
  | .null, .null => isTrue rfl
  | .null, .bool _ => isFalse (fun h => Json.noConfusion h)
  | .null, .num _ => isFalse (fun h => Json.noConfusion h)
  | .null, .str _ => isFalse (fun h => Json.noConfusion h)
  | .null, .arr _ => isFalse (fun h => Json.noConfusion h)
  | .null, .obj _ => isFalse (fun h => Json.noConfusion h)
  | .bool _, .null => isFalse (fun h => Json.noConfusion h)
  | .bool x, .bool y =>
    if h : x = y then isTrue (by rw [h]) else isFalse (fun hh => h (by injection hh))
  | .bool _, .num _ => isFalse (fun h => Json.noConfusion h)
  | .bool _, .str _ => isFalse (fun h => Json.noConfusion h)
  | .bool _, .arr _ => isFalse (fun h => Json.noConfusion h)
  | .bool _, .obj _ => isFalse (fun h => Json.noConfusion h)
  | .num _, .null => isFalse (fun h => Json.noConfusion h)
  | .num _, .bool _ => isFalse (fun h => Json.noConfusion h)
  | .num x, .num y =>
    if h : x = y then isTrue (by rw [h]) else isFalse (fun hh => h (by injection hh))
  | .num _, .str _ => isFalse (fun h => Json.noConfusion h)
  | .num _, .arr _ => isFalse (fun h => Json.noConfusion h)
  | .num _, .obj _ => isFalse (fun h => Json.noConfusion h)
  | .str _, .null => isFalse (fun h => Json.noConfusion h)
  | .str _, .bool _ => isFalse (fun h => Json.noConfusion h)
  | .str _, .num _ => isFalse (fun h => Json.noConfusion h)
  | .str x, .str y =>
    if h : x = y then isTrue (by rw [h]) else isFalse (fun hh => h (by injection hh))
  | .str _, .arr _ => isFalse (fun h => Json.noConfusion h)
  | .str _, .obj _ => isFalse (fun h => Json.noConfusion h)
  | .arr _, .null => isFalse (fun h => Json.noConfusion h)
  | .arr _, .bool _ => isFalse (fun h => Json.noConfusion h)
  | .arr _, .num _ => isFalse (fun h => Json.noConfusion h)
  | .arr _, .str _ => isFalse (fun h => Json.noConfusion h)
  | .arr xs, .arr ys =>
    match Json.decEqList xs ys with
    | isTrue h => isTrue (by rw [h])
    | isFalse h => isFalse (fun hh => h (by injection hh))
  | .arr _, .obj _ => isFalse (fun h => Json.noConfusion h)
  | .obj _, .null => isFalse (fun h => Json.noConfusion h)
  | .obj _, .bool _ => isFalse (fun h => Json.noConfusion h)
  | .obj _, .num _ => isFalse (fun h => Json.noConfusion h)
  | .obj _, .str _ => isFalse (fun h => Json.noConfusion h)
  | .obj _, .arr _ => isFalse (fun h => Json.noConfusion h)
  | .obj fs, .obj gs =>
    match Json.decEqFields fs gs with
    | isTrue h => isTrue (by rw [h])
    | isFalse h => isFalse (fun hh => h (by injection hh))

/-- Decidable equality of JSON array element lists. -/
def Json.decEqList (xs ys : List Json) : Decidable (xs = ys) :=
  match xs, ys with
  | [], [] => isTrue rfl
  | [], _ :: _ => isFalse (fun h => List.noConfusion h)
  | _ :: _, [] => isFalse (fun h => List.noConfusion h)
  | x :: xs, y :: ys =>
    match Json.decEq x y with
    | isTrue h1 =>
      match Json.decEqList xs ys with
      | isTrue h2 => isTrue (by rw [h1, h2])
      | isFalse h2 => isFalse (fun h => h2 (by injection h))
    | isFalse h1 => isFalse (fun h => h1 (by injection h))

/-- Decidable equality of JSON object field lists. -/
def Json.decEqFields (xs ys : List (String × Json)) : Decidable (xs = ys) :=
  match xs, ys with
  | [], [] => isTrue rfl
  | [], _ :: _ => isFalse (fun h => List.noConfusion h)
  | _ :: _, [] => isFalse (fun h => List.noConfusion h)
  | (k1, v1) :: xs, (k2, v2) :: ys =>
    if hk : k1 = k2 then
      match Json.decEq v1 v2 with
      | isTrue hv =>
        match Json.decEqFields xs ys with
        | isTrue ht => isTrue (by rw [hk, hv, ht])
        | isFalse ht => isFalse (fun h => ht (by injection h))
      | isFalse hv =>
        isFalse (fun h => hv (by
          injection h with h1 h2
          exact congrArg Prod.snd h1))
    else
      isFalse (fun h => hk (by
        injection h with h1 h2
        exact congrArg Prod.fst h1))

end

instance : DecidableEq Json := Json.decEq

/-- The exception raised by a failed HTTP attempt
(`requests.exceptions.RequestException`): a transport failure or, via
`raise_for_status`, a non-success HTTP status. -/
structure ReqException where
  msg : String
  deriving DecidableEq

/-- What one HTTP POST attempt does: either an HTTP-successful response with
a parsed JSON body, or a `RequestException`. -/
inductive AttemptOutcome where
  | success (body : Json) : AttemptOutcome
  | failure (e : ReqException) : AttemptOutcome
  deriving DecidableEq

/-- An error raised by `open` on the analytics file. The code handles
`fileNotFound` (`except FileNotFoundError`); anything else, e.g. a
permission error, is modelled by `permissionDenied`. -/
inductive OpenError where
  | fileNotFound : OpenError
  | permissionDenied : OpenError
  deriving DecidableEq

/-- A Python exception as it flows through the modelled code paths. -/
inductive PyExc where
  | request (e : ReqException) : PyExc
  | attributeError : PyExc
  | keyError : PyExc
  | indexError : PyExc
  | typeError : PyExc
  | osError (e : OpenError) : PyExc
  deriving DecidableEq

end Chatbot

deriving instance DecidableEq for Except

namespace Chatbot

/-- Observable outcome of `exponential_backoff_fetch`: how many POST attempts
were made, the sleeps performed between attempts (in seconds, in order), and
the result — the parsed body on success, the re-raised last `RequestException`
on exhaustion, and `Except.ok none` for the `return None` fall-through that
is reachable only with `retries = 0`. -/
structure FetchResult where
  attempts : Nat
  waits : List Nat
  result : Except ReqException (Option Json)
  deriving DecidableEq

/-- The loop `for i in range(retries)` of `exponential_backoff_fetch`,
processing the remaining attempt indices. On failure with `i < retries - 1`
it sleeps `delay`, doubles it, and retries; on failure at the last index it
re-raises. -/
def backoffLoop (att : Nat → AttemptOutcome) (retries : Nat) (delay : Nat) :
    List Nat → FetchResult
  | [] => { attempts := 0, waits := [], result := Except.ok none }
  | i :: rest =>
    match att i with
    | AttemptOutcome.success body =>
        { attempts := 1, waits := [], result := Except.ok (some body) }
    | AttemptOutcome.failure e =>
        if i < retries - 1 then
          let r := backoffLoop att retries (delay * 2) rest
          { attempts := r.attempts + 1, waits := delay :: r.waits, result := r.result }
        else
          { attempts := 1, waits := [], result := Except.error e }

/-- `exponential_backoff_fetch(url, payload, retries, delay)`. The remote
behaviour `client` maps the payload and the attempt index to that attempt
outcome. -/
def exponential_backoff_fetch (client : Json → Nat → AttemptOutcome)
    (payload : Json) (retries : Nat) (delay : Nat) : FetchResult :=
  backoffLoop (client payload) retries delay (List.range retries)

/-- Python truthiness of a JSON value: `None`, `False`, `0`, `""`, `[]` and
`{}` are falsy, everything else truthy. -/
def truthy : Json → Bool
  | Json.null => false
  | Json.bool b => b
  | Json.num n => decide (n ≠ 0)
  | Json.str s => decide (s ≠ "")
  | Json.arr xs => decide (xs ≠ [])
  | Json.obj fs => decide (fs ≠ [])

/-- Truthiness of `response_data`, which may be Python `None` (the
`return None` fall-through of the fetch). -/
def optTruthy : Option Json → Bool
  | none => false
  | some j => truthy j

/-- Key lookup in an object field list; with duplicate keys the last
occurrence wins, as in `json.loads`. -/
def jlookup (fs : List (String × Json)) (key : String) : Option Json :=
  fs.foldl (fun acc p => if p.1 = key then some p.2 else acc) none

/-- Python `data.get(key)`: `None` (here `Option.none`) when the key is
absent; an `AttributeError` when `data` is not a dict. -/
def pyGet (data : Json) (key : String) : Except PyExc (Option Json) :=
  match data with
  | Json.obj fs => Except.ok (jlookup fs key)
  | _ => Except.error PyExc.attributeError

/-- Python `data.get(key, default)`: the default only when the key is absent
(a key mapped to JSON `null` yields `null`, not the default). -/
def pyGetD (data : Json) (key : String) (dflt : Json) : Except PyExc Json :=
  match data with
  | Json.obj fs => Except.ok ((jlookup fs key).getD dflt)
  | _ => Except.error PyExc.attributeError

/-- Python subscript `x[key]` with a string key: dict lookup (`KeyError` when
absent), `TypeError` on any non-dict. -/
def subKey (x : Json) (key : String) : Except PyExc Json :=
  match x with
  | Json.obj fs =>
    match jlookup fs key with
    | some v => Except.ok v
    | none => Except.error PyExc.keyError
  | _ => Except.error PyExc.typeError

/-- Python subscript `x[i]` with a non-negative integer index: list indexing
(`IndexError` when out of range), one-character string for a string,
`TypeError` otherwise (including dicts, whose keys here are strings). -/
def subIdx (x : Json) (i : Nat) : Except PyExc Json :=
  match x with
  | Json.arr xs =>
    match xs.get? i with
    | some v => Except.ok v
    | none => Except.error PyExc.indexError
  | Json.str s =>
    match s.toList.get? i with
    | some c => Except.ok (Json.str (String.mk [c]))
    | none => Except.error PyExc.indexError
  | Json.obj _ => Except.error PyExc.keyError
  | _ => Except.error PyExc.typeError

/-- The condition `response_data and response_data.get("candidates")`.
Evaluating it can itself raise: `.get` on a truthy non-dict body is an
`AttributeError`. Short-circuiting protects the `None` and falsy cases. -/
def candCond (response_data : Option Json) : Except PyExc Bool :=
  match response_data with
  | none => Except.ok false
  | some j =>
    if truthy j then
      match pyGet j "candidates" with
      | Except.ok c => Except.ok (optTruthy c)
      | Except.error e => Except.error e
    else Except.ok false

/-- The chain `response_data["candidates"][0]["content"]["parts"][0]["text"]`. -/
def extractText (j : Json) : Except PyExc Json := do
  let c ← subKey j "candidates"
  let c0 ← subIdx c 0
  let content ← subKey c0 "content"
  let parts ← subKey content "parts"
  let p0 ← subIdx parts 0
  subKey p0 "text"

/-- The same chain applied to `response_data : Option Json`; subscripting
Python `None` raises a `TypeError` (branch unreachable in the callers, which
only extract under a condition that is false for `None`). -/
def extractTextOpt (response_data : Option Json) : Except PyExc Json :=
  match response_data with
  | some j => extractText j
  | none => Except.error PyExc.typeError

/-- Python `.strip()` of the extracted text: trims surrounding whitespace of
a string, raises `AttributeError` on any non-string value. -/
def pyStrip (x : Json) : Except PyExc String :=
  match x with
  | Json.str s => Except.ok s.trim
  | _ => Except.error PyExc.attributeError

/-- The request body `{"contents": [{"role": "user", "parts":
[{"text": prompt}]}]}` shared by both callers. -/
def payloadFor (prompt : String) : Json :=
  Json.obj [("contents", Json.arr [Json.obj
    [("role", Json.str "user"),
     ("parts", Json.arr [Json.obj [("text", Json.str prompt)]])]])]

/-- The fixed instructional template of `classify_topic`, with the query
interpolated. -/
def topicPrompt (query : String) : String :=
  "Classify the following text into a single, concise topic (e.g., " ++
  "\x27General Question\x27, \x27Technical Support\x27, " ++
  "\x27Product Information\x27, \x27Creative Writing\x27). " ++
  "Text: \x27" ++ query ++ "\x27"

/-- The string representation `str(e)` used when embedding an exception into
a user-facing message. -/
def pyExcMsg : PyExc → String
  | PyExc.request e => e.msg
  | PyExc.attributeError => "AttributeError"
  | PyExc.keyError => "KeyError"
  | PyExc.indexError => "IndexError"
  | PyExc.typeError => "TypeError"
  | PyExc.osError _ => "OSError"

/-- The fixed fallback of `get_gemini_response` for a response without a
truthy `candidates` entry. -/
def fallbackText : String :=
  "Sorry, I could not get a valid response from the API."

/-- The `try:` body of `get_gemini_response`: fetch with the default
`retries=5, delay=1`, test `response_data and response_data.get("candidates")`,
then either extract the nested text or return the fixed fallback. Any raised
exception surfaces as `Except.error`. -/
def get_gemini_response_body (client : Json → Nat → AttemptOutcome)
    (prompt : String) : Except PyExc Json :=
  match (exponential_backoff_fetch client (payloadFor prompt) 5 1).result with
  | Except.error e => Except.error (PyExc.request e)
  | Except.ok response_data =>
    match candCond response_data with
    | Except.error e => Except.error e
    | Except.ok true => extractTextOpt response_data
    | Except.ok false => Except.ok (Json.str fallbackText)

/-- `get_gemini_response(prompt)`: the body wrapped in
`except Exception as e: return f"An internal error occurred: {e}"`. The
returned value is the extracted JSON value on the happy path (a `Json.str`
whenever the response text is a string) and a string on every handled
failure. -/
def get_gemini_response (client : Json → Nat → AttemptOutcome)
    (prompt : String) : Except PyExc Json :=
  match get_gemini_response_body client prompt with
  | Except.ok v => Except.ok v
  | Except.error e =>
    Except.ok (Json.str ("An internal error occurred: " ++ pyExcMsg e))

/-- The `try:` body of `classify_topic`: fetch with the classification
payload, test the candidates condition, extract and `strip()` the text, or
return `"Unknown"` when the condition is falsy. -/
def classify_topic_body (client : Json → Nat → AttemptOutcome)
    (query : String) : Except PyExc String :=
  match (exponential_backoff_fetch client (payloadFor (topicPrompt query)) 5 1).result with
  | Except.error e => Except.error (PyExc.request e)
  | Except.ok response_data =>
    match candCond response_data with
    | Except.error e => Except.error e
    | Except.ok true =>
      match extractTextOpt response_data with
      | Except.error e => Except.error e
      | Except.ok t => pyStrip t
    | Except.ok false => Except.ok "Unknown"

/-- `classify_topic(query)`: the body wrapped in
`except Exception: return "Unknown"`. -/
def classify_topic (client : Json → Nat → AttemptOutcome)
    (query : String) : Except PyExc String :=
  match classify_topic_body client query with
  | Except.ok s => Except.ok s
  | Except.error _ => Except.ok "Unknown"

/-- A rating as constrained by the data model: `"positive"` or `"negative"`
when present. -/
inductive Rating where
  | positive : Rating
  | negative : Rating
  deriving DecidableEq

/-- An interaction record as logged by the feedback buttons:
`{"timestamp": ..., "query": ..., "response": ..., "topic": ...,
"rating": ...}`, the rating field optional per the data model. -/
structure InteractionRecord where
  timestamp : String
  query : String
  response : String
  topic : String
  rating : Option Rating
  deriving DecidableEq

/-- The optional trailing `"rating"` field of a serialized record. -/
def ratingField : Option Rating → List (String × Json)
  | none => []
  | some Rating.positive => [("rating", Json.str "positive")]
  | some Rating.negative => [("rating", Json.str "negative")]

/-- The JSON object `json.dumps` serializes for an interaction record, in
the field order the program builds it. -/
def interactionToJson (r : InteractionRecord) : Json :=
  Json.obj ([("timestamp", Json.str r.timestamp),
             ("query", Json.str r.query),
             ("response", Json.str r.response),
             ("topic", Json.str r.topic)] ++ ratingField r.rating)

/-- A log file is the list of the `json.loads` outcomes of its lines:
`none` for a line raising `JSONDecodeError`, `some v` for a line parsing to
the value `v`. `json.dumps` emits a single `\n`-terminated line that parses
back to the serialized value, so an appended record arrives as `some`. -/
abbrev LogFile : Type := List (Option Json)

/-- `log_analytics(data)`: append one serialized line inside
`try: ... except IOError`; on a write failure (`writeOk = false`) the error
is only reported and the file is unchanged. -/
def log_analytics (writeOk : Bool) (data : Json) (file : LogFile) : LogFile :=
  if writeOk then file ++ [some data] else file

/-- The mutable counters of the aggregation loop in
`get_analytics_dashboard_data`, with the topic histogram as the ordered
key/count list of a Python dict. -/
structure AggState where
  total_queries : Nat
  positive_ratings : Nat
  negative_ratings : Nat
  topic_counts : List (Json × Nat)
  deriving DecidableEq

/-- The zero counters the scan starts from. -/
def startState : AggState :=
  { total_queries := 0, positive_ratings := 0, negative_ratings := 0,
    topic_counts := [] }

/-- Whether a JSON value is hashable as a Python dict key (lists and dicts
are not). -/
def hashable : Json → Bool
  | Json.arr _ => false
  | Json.obj _ => false
  | _ => true

/-- `topic_counts[topic] = topic_counts.get(topic, 0) + 1` on the ordered
key/count list of a dict: an existing key is updated in place, a new key is
appended. -/
def bump : List (Json × Nat) → Json → List (Json × Nat)
  | [], k => [(k, 1)]
  | (k0, n) :: rest, k =>
    if k0 = k then (k0, n + 1) :: rest else (k0, n) :: bump rest k

/-- One iteration of the scan loop: a line that raised `JSONDecodeError` is
skipped (`except json.JSONDecodeError: pass`); otherwise `total_queries` is
incremented, the rating checked (`if` positive, `elif` negative), and the topic (default `"Unknown"`) counted. `data.get` on a
non-dict value and an unhashable topic key raise, and nothing catches
those exceptions. -/
def processLine (st : AggState) (line : Option Json) : Except PyExc AggState :=
  match line with
  | none => Except.ok st
  | some data =>
    match pyGet data "rating" with
    | Except.error e => Except.error e
    | Except.ok rating =>
      let counters : Nat × Nat :=
        if rating = some (Json.str "positive") then
          (st.positive_ratings + 1, st.negative_ratings)
        else if rating = some (Json.str "negative") then
          (st.positive_ratings, st.negative_ratings + 1)
        else
          (st.positive_ratings, st.negative_ratings)
      match pyGetD data "topic" (Json.str "Unknown") with
      | Except.error e => Except.error e
      | Except.ok topic =>
        if hashable topic then
          Except.ok
            { total_queries := st.total_queries + 1,
              positive_ratings := counters.1,
              negative_ratings := counters.2,
              topic_counts := bump st.topic_counts topic }
        else Except.error PyExc.typeError

/-- The `for line in f` loop: process lines in order; an uncaught exception
aborts the whole call. -/
def aggLines (st : AggState) : List (Option Json) → Except PyExc AggState
  | [] => Except.ok st
  | line :: rest =>
    match processLine st line with
    | Except.error e => Except.error e
    | Except.ok st2 => aggLines st2 rest

/-- The sort order of `sorted(topic_counts.items(), key=lambda item:
item[1], reverse=True)`: by count, descending. -/
def countGE (a b : Json × Nat) : Prop := b.2 ≤ a.2

instance : DecidableRel countGE := fun a b => Nat.decLe b.2 a.2

instance : IsTotal (Json × Nat) countGE := ⟨fun a b => Nat.le_total b.2 a.2⟩

instance : IsTrans (Json × Nat) countGE := ⟨fun _ _ _ h1 h2 => Nat.le_trans h2 h1⟩

/-- The summary dict returned by `get_analytics_dashboard_data`. -/
structure AnalyticsSummary where
  totalQueries : Nat
  positiveRatings : Nat
  negativeRatings : Nat
  topics : List (Json × Nat)
  deriving DecidableEq

/-- Build the returned summary from the final counters, sorting the topic
histogram by count descending with a stable sort, as Python `sorted` with
`reverse=True` does. -/
def finalize (st : AggState) : AnalyticsSummary :=
  { totalQueries := st.total_queries,
    positiveRatings := st.positive_ratings,
    negativeRatings := st.negative_ratings,
    topics := List.insertionSort countGE st.topic_counts }

/-- `get_analytics_dashboard_data()`, given the outcome of opening the log
file. `except FileNotFoundError: pass` turns a missing file into the zero
counters; any other open error, and any exception raised inside the loop,
propagates. The sort and the return run in both non-raising cases. -/
def get_analytics_dashboard_data (file : Except OpenError LogFile) :
    Except PyExc AnalyticsSummary :=
  match file with
  | Except.ok lines =>
    match aggLines startState lines with
    | Except.error e => Except.error e
    | Except.ok st => Except.ok (finalize st)
  | Except.error OpenError.fileNotFound => Except.ok (finalize startState)
  | Except.error e => Except.error (PyExc.osError e)

/-- The total count recorded for a topic key in a key/count list: the sum of
the counts of all entries with that key (a single entry per key in a
histogram produced by the scan). -/
def topicCount : List (Json × Nat) → Json → Nat
  | [], _ => 0
  | (k0, n) :: rest, k => (if k0 = k then n else 0) + topicCount rest k

/-- The fetch performed by `get_gemini_response` for a prompt under a given
remote behaviour ended in the re-raised last failure: every retry attempt
failed (transport or HTTP). -/
def chatFetchFailed (client : Json → Nat → AttemptOutcome) (prompt : String) : Prop :=
  ∃ e, (exponential_backoff_fetch client (payloadFor prompt) 5 1).result =
    Except.error e

/-- The fetch performed by `get_gemini_response` returned an HTTP-successful
body that does not carry the expected candidate/text shape: the happy path
(truthy `candidates` and a successful nested extraction) does not apply. -/
def chatEnvelopeMalformed (client : Json → Nat → AttemptOutcome) (prompt : String) : Prop :=
  ∃ o, (exponential_backoff_fetch client (payloadFor prompt) 5 1).result =
      Except.ok o ∧
    ¬ (candCond o = Except.ok true ∧ ∃ v, extractTextOpt o = Except.ok v)

/-- An HTTP-successful envelope whose first candidate carries the empty
string in the expected nested text position. -/
def emptyTextEnvelope : Json :=
  Json.obj [("candidates", Json.arr [Json.obj
    [("content", Json.obj [("parts", Json.arr
      [Json.obj [("text", Json.str "")]])])]])]

/-- An HTTP-successful envelope with a truthy `candidates` list whose first
element lacks the nested `content`/`parts`/`text` shape. -/
def malformedCandidateEnvelope : Json :=
  Json.obj [("candidates", Json.arr [Json.obj []])]

/-- An HTTP-successful envelope with no `candidates` key at all. -/
def noCandidatesEnvelope : Json :=
  Json.obj [("foo", Json.null)]

/-- A remote behaviour whose every attempt fails with the same transport
error. -/
def alwaysFailClient : Json → Nat → AttemptOutcome :=
  fun _ _ => AttemptOutcome.failure ⟨"connection refused"⟩

/-- A remote behaviour that immediately succeeds with a fixed body. -/
def constClient (body : Json) : Json → Nat → AttemptOutcome :=
  fun _ _ => AttemptOutcome.success body

/-- A log whose successfully parsed records count topics A five times and
B and C three times each, A first. -/
def abcLog : LogFile :=
  [some (Json.obj [("topic", Json.str "A")]),
   some (Json.obj [("topic", Json.str "A")]),
   some (Json.obj [("topic", Json.str "A")]),
   some (Json.obj [("topic", Json.str "A")]),
   some (Json.obj [("topic", Json.str "A")]),
   some (Json.obj [("topic", Json.str "B")]),
   some (Json.obj [("topic", Json.str "B")]),
   some (Json.obj [("topic", Json.str "B")]),
   some (Json.obj [("topic", Json.str "C")]),
   some (Json.obj [("topic", Json.str "C")]),
   some (Json.obj [("topic", Json.str "C")])]

/-- A concrete interaction record used to instantiate the round-trip
property. -/
def sampleRecord : InteractionRecord :=
  { timestamp := "2024-01-01 00:00:00", query := "q", response := "resp",
    topic := "Topic", rating := some Rating.positive }

/-- C1: with `maxAttempts = 5` and `initialDelay = 1`, a remote behaviour
that fails every attempt makes exactly 5 attempts, sleeps `1, 2, 4, 8`
between them, and terminates with the error re-raised from the last
attempt. -/
theorem backoff_exhausts_after_five_attempts
    (client : Json → Nat → AttemptOutcome) (payload : Json)
    (f : Nat → ReqException)
    (h : ∀ i, i < 5 → client payload i = AttemptOutcome.failure (f i)) :
    (exponential_backoff_fetch client payload 5 1).attempts = 5 ∧
    (exponential_backoff_fetch client payload 5 1).waits = [1, 2, 4, 8] ∧
    (exponential_backoff_fetch client payload 5 1).result = Except.error (f 4) := by
  have hr : List.range 5 = [0, 1, 2, 3, 4] := rfl
  simp only [exponential_backoff_fetch, hr, backoffLoop,
    h 0 (by decide), h 1 (by decide), h 2 (by decide), h 3 (by decide),
    h 4 (by decide)]
  norm_num

/-- Witness for the exhaustion property, at a behaviour whose every attempt
raises the same connection error. -/
theorem backoff_exhausts_after_five_attempts_witness :
    (exponential_backoff_fetch alwaysFailClient Json.null 5 1).attempts = 5 ∧
    (exponential_backoff_fetch alwaysFailClient Json.null 5 1).waits = [1, 2, 4, 8] ∧
    (exponential_backoff_fetch alwaysFailClient Json.null 5 1).result =
      Except.error ⟨"connection refused"⟩ :=
  backoff_exhausts_after_five_attempts alwaysFailClient Json.null
    (fun _ => ⟨"connection refused"⟩) (fun _ _ => rfl)

/-- C10: the success branch of `get_gemini_response` is decided by the
presence of a truthy `candidates` list, not by the candidate text: an
envelope whose first nested text field is the empty string is returned
verbatim, not replaced by the fallback. -/
theorem response_empty_candidate_text_returned_verbatim :
    get_gemini_response (constClient emptyTextEnvelope) "hi" =
      Except.ok (Json.str "") ∧
    Json.str "" ≠ Json.str fallbackText := by
  constructor
  · rfl
  · decide

/-- C2: for every query and every remote behaviour, neither wrapper
propagates an exception: `get_gemini_response` and `classify_topic` always
return a value (`classify_topic` always a string), and on each of the
enumerated failure behaviours — retries exhausted by transport/HTTP
failures, or an HTTP-successful envelope without the expected
candidate/text shape — `get_gemini_response` returns a string. -/
theorem wrappers_never_propagate (client : Json → Nat → AttemptOutcome)
    (q : String) :
    (∃ v, get_gemini_response client q = Except.ok v) ∧
    (∃ s, classify_topic client q = Except.ok s) ∧
    (chatFetchFailed client q ∨ chatEnvelopeMalformed client q →
      ∃ s, get_gemini_response client q = Except.ok (Json.str s)) := by
  refine ⟨?_, ?_, ?_⟩
  · cases hb : get_gemini_response_body client q with
    | ok v => exact ⟨v, by simp [get_gemini_response, hb]⟩
    | error e =>
      exact ⟨Json.str ("An internal error occurred: " ++ pyExcMsg e),
        by simp [get_gemini_response, hb]⟩
  · cases hb : classify_topic_body client q with
    | ok s => exact ⟨s, by simp [classify_topic, hb]⟩
    | error e => exact ⟨"Unknown", by simp [classify_topic, hb]⟩
  · intro h
    cases h with
    | inl hf =>
      obtain ⟨e, he⟩ := hf
      exact ⟨"An internal error occurred: " ++ pyExcMsg (PyExc.request e),
        by simp [get_gemini_response, get_gemini_response_body, he]⟩
    | inr hm =>
      obtain ⟨o, ho, hn⟩ := hm
      cases hc : candCond o with
      | error e =>
        exact ⟨"An internal error occurred: " ++ pyExcMsg e,
          by simp [get_gemini_response, get_gemini_response_body, ho, hc]⟩
      | ok b =>
        cases b with
        | false =>
          exact ⟨fallbackText,
            by simp [get_gemini_response, get_gemini_response_body, ho, hc]⟩
        | true =>
          cases hx : extractTextOpt o with
          | ok v => exact absurd ⟨hc, v, hx⟩ hn
          | error e =>
            exact ⟨"An internal error occurred: " ++ pyExcMsg e,
              by simp [get_gemini_response, get_gemini_response_body, ho, hc, hx]⟩

/-- Witness: at a behaviour whose every attempt fails, both wrappers return
strings without raising. -/
theorem wrappers_never_propagate_witness :
    (∃ v, get_gemini_response alwaysFailClient "hi" = Except.ok v) ∧
    (∃ s, classify_topic alwaysFailClient "hi" = Except.ok s) ∧
    (chatFetchFailed alwaysFailClient "hi" ∨
        chatEnvelopeMalformed alwaysFailClient "hi" →
      ∃ s, get_gemini_response alwaysFailClient "hi" = Except.ok (Json.str s)) :=
  wrappers_never_propagate alwaysFailClient "hi"

/-- C6: `classify_topic` returns exactly `"Unknown"` whenever the fetch
exhausted its retries, or it returned an envelope on which the candidates
condition does not come out true (absent or falsy `candidates`, or a body
on which evaluating the condition itself raises). -/
theorem classify_topic_unknown_on_failure (client : Json → Nat → AttemptOutcome)
    (q : String)
    (h : (∃ e, (exponential_backoff_fetch client
            (payloadFor (topicPrompt q)) 5 1).result = Except.error e) ∨
         (∃ o, (exponential_backoff_fetch client
            (payloadFor (topicPrompt q)) 5 1).result = Except.ok o ∧
            candCond o ≠ Except.ok true)) :
    classify_topic client q = Except.ok "Unknown" := by
  cases h with
  | inl hf =>
    obtain ⟨e, he⟩ := hf
    simp [classify_topic, classify_topic_body, he]
  | inr hm =>
    obtain ⟨o, ho, hc⟩ := hm
    cases hcc : candCond o with
    | error e => simp [classify_topic, classify_topic_body, ho, hcc]
    | ok b =>
      cases b with
      | false => simp [classify_topic, classify_topic_body, ho, hcc]
      | true => exact absurd hcc hc

/-- Witness: with every attempt failing, the classifier returns exactly
`"Unknown"`. -/
theorem classify_topic_unknown_on_failure_witness :
    classify_topic alwaysFailClient "hi" = Except.ok "Unknown" :=
  classify_topic_unknown_on_failure alwaysFailClient "hi"
    (Or.inl ⟨⟨"connection refused"⟩, rfl⟩)

/-- C4 counterexample: two envelopes both lacking the expected
candidate/text shape produce different strings — the fixed fallback for an
absent `candidates` key, but an exception-embedding string for a truthy
`candidates` whose first element lacks `content` — so the claim that every
malformed envelope yields the one fixed fallback string is false. -/
theorem malformed_envelope_not_always_fixed_fallback :
    get_gemini_response (constClient noCandidatesEnvelope) "hi" =
      Except.ok (Json.str fallbackText) ∧
    get_gemini_response (constClient malformedCandidateEnvelope) "hi" =
      Except.ok (Json.str "An internal error occurred: KeyError") ∧
    Json.str "An internal error occurred: KeyError" ≠ Json.str fallbackText := by
  refine ⟨rfl, rfl, by decide⟩

/-- C4 amended: when the fetch succeeds, a falsy or absent `candidates`
yields the fixed fallback string; a body on which the candidates condition
itself raises, or a truthy `candidates` whose nested extraction raises,
yields a string embedding the exception text — in all cases a string, never
a propagated error. -/
theorem malformed_envelope_degrades_to_string
    (client : Json → Nat → AttemptOutcome) (q : String) (o : Option Json)
    (hf : (exponential_backoff_fetch client (payloadFor q) 5 1).result =
      Except.ok o) :
    (candCond o = Except.ok false →
      get_gemini_response client q = Except.ok (Json.str fallbackText)) ∧
    (∀ e, candCond o = Except.error e →
      get_gemini_response client q =
        Except.ok (Json.str ("An internal error occurred: " ++ pyExcMsg e))) ∧
    (∀ e, candCond o = Except.ok true → extractTextOpt o = Except.error e →
      get_gemini_response client q =
        Except.ok (Json.str ("An internal error occurred: " ++ pyExcMsg e))) := by
  refine ⟨?_, ?_, ?_⟩
  · intro hc
    simp [get_gemini_response, get_gemini_response_body, hf, hc]
  · intro e hc
    simp [get_gemini_response, get_gemini_response_body, hf, hc]
  · intro e hc hx
    simp [get_gemini_response, get_gemini_response_body, hf, hc, hx]

/-- Witness: a truthy `candidates` whose first element lacks `content`
raises a `KeyError` during extraction and degrades to the embedding
string. -/
theorem malformed_envelope_degrades_to_string_witness :
    get_gemini_response (constClient malformedCandidateEnvelope) "hi" =
      Except.ok (Json.str ("An internal error occurred: " ++
        pyExcMsg PyExc.keyError)) :=
  (malformed_envelope_degrades_to_string (constClient malformedCandidateEnvelope)
    "hi" (some malformedCandidateEnvelope) rfl).2.2 PyExc.keyError rfl rfl

/-- Processing a line that raised `JSONDecodeError` leaves the counters
unchanged. -/
theorem processLine_skip (st : AggState) : processLine st none = Except.ok st :=
  rfl

/-- Scanning a concatenation scans the first part, then — unless it raised —
the second from the reached counters. -/
theorem aggLines_append (l1 l2 : List (Option Json)) (st : AggState) :
    aggLines st (l1 ++ l2) =
      match aggLines st l1 with
      | Except.error e => Except.error e
      | Except.ok st1 => aggLines st1 l2 := by
  induction l1 generalizing st with
  | nil => simp [aggLines]
  | cons line rest ih =>
    simp only [List.cons_append, aggLines]
    cases processLine st line with
    | error e => rfl
    | ok st2 => exact ih st2

/-- One successfully parsed line preserves the invariant
`positive + negative ≤ total`: it increments the total by one and at most
one of the two rating counters. -/
theorem processLine_counter_bound (st st2 : AggState) (line : Option Json)
    (h : processLine st line = Except.ok st2)
    (hin : st.positive_ratings + st.negative_ratings ≤ st.total_queries) :
    st2.positive_ratings + st2.negative_ratings ≤ st2.total_queries := by
  cases line with
  | none =>
    cases h
    exact hin
  | some data =>
    simp only [processLine] at h
    cases hg : pyGet data "rating" with
    | error e => rw [hg] at h; exact Except.noConfusion h
    | ok rating =>
      rw [hg] at h
      simp only at h
      cases ht : pyGetD data "topic" (Json.str "Unknown") with
      | error e => rw [ht] at h; exact Except.noConfusion h
      | ok topic =>
        rw [ht] at h
        simp only at h
        by_cases hh : hashable topic
        · rw [if_pos hh] at h
          injection h with h2
          subst h2
          simp only
          split
          · simp only
            omega
          · split <;> simp only <;> omega
        · rw [if_neg hh] at h
          exact Except.noConfusion h

/-- The counter invariant holds along the whole scan. -/
theorem aggLines_counter_bound (lines : List (Option Json)) :
    ∀ st st2, aggLines st lines = Except.ok st2 →
      st.positive_ratings + st.negative_ratings ≤ st.total_queries →
      st2.positive_ratings + st2.negative_ratings ≤ st2.total_queries := by
  induction lines with
  | nil =>
    intro st st2 h hin
    cases h
    exact hin
  | cons line rest ih =>
    intro st st2 h hin
    simp only [aggLines] at h
    cases hp : processLine st line with
    | error e => rw [hp] at h; exact Except.noConfusion h
    | ok st1 =>
      rw [hp] at h
      exact ih st1 st2 h (processLine_counter_bound st st1 line hp hin)

/-- C7: every summary the aggregator actually returns satisfies
`positiveRatings + negativeRatings ≤ totalQueries`. -/
theorem summary_rating_bound (file : Except OpenError LogFile)
    (s : AnalyticsSummary)
    (h : get_analytics_dashboard_data file = Except.ok s) :
    s.positiveRatings + s.negativeRatings ≤ s.totalQueries := by
  cases file with
  | error e =>
    cases e with
    | fileNotFound =>
      simp only [get_analytics_dashboard_data] at h
      injection h with h2
      subst h2
      exact Nat.le_refl 0
    | permissionDenied =>
      exact Except.noConfusion h
  | ok lines =>
    simp only [get_analytics_dashboard_data] at h
    cases ha : aggLines startState lines with
    | error e => rw [ha] at h; exact Except.noConfusion h
    | ok st =>
      rw [ha] at h
      injection h with h2
      subst h2
      exact aggLines_counter_bound lines startState st ha (Nat.le_refl 0)

/-- Witness: the bound at a one-line log with a positive rating. -/
theorem summary_rating_bound_witness :
    let s : AnalyticsSummary :=
      ⟨1, 1, 0, [(Json.str "Unknown", 1)]⟩
    s.positiveRatings + s.negativeRatings ≤ s.totalQueries :=
  summary_rating_bound
    (Except.ok [some (Json.obj [("rating", Json.str "positive")])])
    ⟨1, 1, 0, [(Json.str "Unknown", 1)]⟩ rfl

/-- C3 counterexample: a file-open failure other than "does not exist" is
not caught — the call terminates with the propagated error rather than the
empty summary. -/
theorem open_failure_propagates :
    get_analytics_dashboard_data (Except.error OpenError.permissionDenied) =
      Except.error (PyExc.osError OpenError.permissionDenied) ∧
    get_analytics_dashboard_data (Except.error OpenError.permissionDenied) ≠
      Except.ok ⟨0, 0, 0, []⟩ := by
  refine ⟨rfl, by decide⟩

/-- C3 amended: on a missing log file or an empty log file the summary is
`{0, 0, 0, []}`; a file-open failure other than "does not exist" is not
handled and propagates. -/
theorem dashboard_missing_or_empty_log :
    get_analytics_dashboard_data (Except.error OpenError.fileNotFound) =
      Except.ok ⟨0, 0, 0, []⟩ ∧
    get_analytics_dashboard_data (Except.ok []) = Except.ok ⟨0, 0, 0, []⟩ ∧
    get_analytics_dashboard_data (Except.error OpenError.permissionDenied) =
      Except.error (PyExc.osError OpenError.permissionDenied) :=
  ⟨rfl, rfl, rfl⟩

/-- C5 counterexample: a line that parses as JSON but not as a JSON object
(here the number `5`) is not skipped: `data.get` raises `AttributeError`,
the scan aborts, and the following well-formed line is never counted. -/
theorem non_object_line_aborts_scan :
    get_analytics_dashboard_data
      (Except.ok [some (Json.num 5), some (Json.obj [("topic", Json.str "T")])]) =
      Except.error PyExc.attributeError :=
  rfl

/-- C5 amended: a line on which JSON decoding fails is skipped silently —
it contributes nothing and the remaining lines are processed exactly as if
the line were absent — whereas a line decoding to a non-object JSON value
raises `AttributeError` and aborts the scan. -/
theorem undecodable_line_skipped (pre post : LogFile) :
    get_analytics_dashboard_data (Except.ok (pre ++ none :: post)) =
      get_analytics_dashboard_data (Except.ok (pre ++ post)) ∧
    get_analytics_dashboard_data (Except.ok [some (Json.num 5)]) =
      Except.error PyExc.attributeError := by
  refine ⟨?_, rfl⟩
  simp only [get_analytics_dashboard_data]
  rw [aggLines_append, aggLines_append]
  cases aggLines startState pre with
  | error e => rfl
  | ok st =>
    simp only [aggLines, processLine_skip]

/-- Witness: skipping an undecodable line between a one-record prefix and an
empty suffix. -/
theorem undecodable_line_skipped_witness :
    get_analytics_dashboard_data
        (Except.ok ([some (Json.obj [("topic", Json.str "T")])] ++ none :: [])) =
      get_analytics_dashboard_data
        (Except.ok ([some (Json.obj [("topic", Json.str "T")])] ++ [])) ∧
    get_analytics_dashboard_data (Except.ok [some (Json.num 5)]) =
      Except.error PyExc.attributeError :=
  undecodable_line_skipped [some (Json.obj [("topic", Json.str "T")])] []

/-- The topic count of a key/count list is the sum of the counts at the
key. -/
theorem topicCount_eq_sum (l : List (Json × Nat)) (k : Json) :
    topicCount l k = (l.map (fun p => if p.1 = k then p.2 else 0)).sum := by
  induction l with
  | nil => rfl
  | cons p rest ih => simp [topicCount, ih]

/-- Permuting a key/count list does not change any topic count. -/
theorem topicCount_perm {l1 l2 : List (Json × Nat)} (h : l1.Perm l2)
    (k : Json) : topicCount l1 k = topicCount l2 k := by
  rw [topicCount_eq_sum, topicCount_eq_sum]
  exact List.Perm.sum_eq (h.map _)

/-- Sorting the histogram preserves every topic count. -/
theorem topicCount_insertionSort (tc : List (Json × Nat)) (k : Json) :
    topicCount (List.insertionSort countGE tc) k = topicCount tc k :=
  topicCount_perm (List.perm_insertionSort countGE tc) k

/-- The dict update `topic_counts[k] = topic_counts.get(k, 0) + 1` increases
the count at `k` by exactly one. -/
theorem topicCount_bump (tc : List (Json × Nat)) (k : Json) :
    topicCount (bump tc k) k = topicCount tc k + 1 := by
  induction tc with
  | nil => simp [bump, topicCount]
  | cons p rest ih =>
    obtain ⟨k0, n⟩ := p
    by_cases h : k0 = k
    · simp [bump, h, topicCount]
      omega
    · simp only [bump, if_neg h, topicCount, ih]
      omega

/-- Processing the serialized form of an interaction record succeeds and
counts it exactly once: total up one, the matching rating counter up one,
its topic bumped. -/
theorem processLine_record (st : AggState) (r : InteractionRecord) :
    processLine st (some (interactionToJson r)) = Except.ok
      { total_queries := st.total_queries + 1,
        positive_ratings := st.positive_ratings +
          (if r.rating = some Rating.positive then 1 else 0),
        negative_ratings := st.negative_ratings +
          (if r.rating = some Rating.negative then 1 else 0),
        topic_counts := bump st.topic_counts (Json.str r.topic) } := by
  obtain ⟨ts, q, resp, top, rat⟩ := r
  cases rat with
  | none => rfl
  | some rt => cases rt <;> rfl

/-- C8: appending one record to any prior log adds exactly one to the
total, one to the matching rating counter, and one to the topic
count in a fresh summary. -/
theorem log_then_dashboard_roundtrip (r : InteractionRecord) (prior : LogFile)
    (s s2 : AnalyticsSummary)
    (h1 : get_analytics_dashboard_data (Except.ok prior) = Except.ok s)
    (h2 : get_analytics_dashboard_data
      (Except.ok (log_analytics true (interactionToJson r) prior)) =
      Except.ok s2) :
    s2.totalQueries = s.totalQueries + 1 ∧
    s2.positiveRatings = s.positiveRatings +
      (if r.rating = some Rating.positive then 1 else 0) ∧
    s2.negativeRatings = s.negativeRatings +
      (if r.rating = some Rating.negative then 1 else 0) ∧
    topicCount s2.topics (Json.str r.topic) =
      topicCount s.topics (Json.str r.topic) + 1 := by
  simp only [get_analytics_dashboard_data, log_analytics, if_pos] at h1 h2
  cases ha : aggLines startState prior with
  | error e => rw [ha] at h1; exact Except.noConfusion h1
  | ok st =>
    rw [ha] at h1
    injection h1 with hs
    subst hs
    rw [aggLines_append, ha] at h2
    simp only [aggLines, processLine_record] at h2
    injection h2 with hs2
    subst hs2
    refine ⟨rfl, rfl, rfl, ?_⟩
    simp only [finalize]
    rw [topicCount_insertionSort, topicCount_insertionSort, topicCount_bump]

/-- Witness: one positively rated record appended to the empty log. -/
theorem log_then_dashboard_roundtrip_witness :
    (⟨1, 1, 0, [(Json.str "Topic", 1)]⟩ : AnalyticsSummary).totalQueries =
      (⟨0, 0, 0, []⟩ : AnalyticsSummary).totalQueries + 1 ∧
    (⟨1, 1, 0, [(Json.str "Topic", 1)]⟩ : AnalyticsSummary).positiveRatings =
      (⟨0, 0, 0, []⟩ : AnalyticsSummary).positiveRatings +
        (if sampleRecord.rating = some Rating.positive then 1 else 0) ∧
    (⟨1, 1, 0, [(Json.str "Topic", 1)]⟩ : AnalyticsSummary).negativeRatings =
      (⟨0, 0, 0, []⟩ : AnalyticsSummary).negativeRatings +
        (if sampleRecord.rating = some Rating.negative then 1 else 0) ∧
    topicCount (⟨1, 1, 0, [(Json.str "Topic", 1)]⟩ : AnalyticsSummary).topics
        (Json.str sampleRecord.topic) =
      topicCount (⟨0, 0, 0, []⟩ : AnalyticsSummary).topics
        (Json.str sampleRecord.topic) + 1 :=
  log_then_dashboard_roundtrip sampleRecord [] ⟨0, 0, 0, []⟩
    ⟨1, 1, 0, [(Json.str "Topic", 1)]⟩ rfl rfl

/-- C9: every returned topics sequence is sorted by count descending, and
on a log counting A five times and B and C three times each, A comes
strictly before B and C. -/
theorem dashboard_topics_sorted_desc :
    (∀ (file : Except OpenError LogFile) (s : AnalyticsSummary),
      get_analytics_dashboard_data file = Except.ok s →
      s.topics.Pairwise (fun a b => b.2 ≤ a.2)) ∧
    get_analytics_dashboard_data (Except.ok abcLog) =
      Except.ok ⟨11, 0, 0,
        [(Json.str "A", 5), (Json.str "B", 3), (Json.str "C", 3)]⟩ := by
  constructor
  · intro file s h
    cases file with
    | error e =>
      cases e with
      | fileNotFound =>
        simp only [get_analytics_dashboard_data] at h
        injection h with h2
        subst h2
        exact List.Pairwise.nil
      | permissionDenied => exact Except.noConfusion h
    | ok lines =>
      simp only [get_analytics_dashboard_data] at h
      cases ha : aggLines startState lines with
      | error e => rw [ha] at h; exact Except.noConfusion h
      | ok st =>
        rw [ha] at h
        injection h with h2
        subst h2
        exact List.sorted_insertionSort countGE st.topic_counts
  · rfl

/-- Witness: the sortedness applied to the A/B/C log summary. -/
theorem dashboard_topics_sorted_desc_witness :
    ([(Json.str "A", 5), (Json.str "B", 3), (Json.str "C", 3)] :
      List (Json × Nat)).Pairwise (fun a b => b.2 ≤ a.2) :=
  dashboard_topics_sorted_desc.1 (Except.ok abcLog)
    ⟨11, 0, 0, [(Json.str "A", 5), (Json.str "B", 3), (Json.str "C", 3)]⟩ rfl

end Chatbot
